import Mathlib

/-!
Verification of the nRF52840 USB CDC-ACM device controller
(src/src/machine/usb_nrf52840.go) against its natural-language
specification.

The Go source is shallowly embedded: the package-level mutable globals
become the fields of a state structure (USBState), machine integers
become Nat (uint8/uint32 values stay below 2^8/2^32 along every path the
theorems exercise; explicit truncation is written where the source casts),
and hardware register writes that trigger observable device behaviour
(DMA starts, the EP0 status/stall tasks, OUT re-arming) become an emitted
list of USBAction values while register mirrors kept in Go globals
(epinen, epouten) stay in the state.  Byte buffers are Lists of Nat; the
Go built-in copy is goCopy.
-/

set_option maxRecDepth 16384

namespace TinyGoUSB

/-! ### Constants

The constants below are referenced by usb_nrf52840.go but declared in a
part of the repository that is not included under src (the shared usb.go
of the machine package and the generated nrf device bindings).  They are
modelled from the spec, which pins them to the standard USB 2.0 / CDC-ACM
wire protocol values (spec sections 4.2, 4.4, 6) and to the CDC-ACM
endpoint profile of the data model (4 logical endpoints: control,
interrupt-IN, bulk-OUT, bulk-IN).
-/

/-- Modelled from the spec: max packet size of the control/bulk endpoints
(64 bytes, spec section 3, PerEndpointStagingBuffers). -/
def usbEndpointPacketSize : Nat := 64

/-- Modelled from the spec: IN direction flag of an endpoint address. -/
def usbEndpointIn : Nat := 0x80

/-- Modelled from the spec: OUT direction flag of an endpoint address. -/
def usbEndpointOut : Nat := 0x00

/-- Modelled from the spec: endpoint transfer-type codes (USB standard). -/
def usb_ENDPOINT_TYPE_CONTROL : Nat := 0x00

def usb_ENDPOINT_TYPE_BULK : Nat := 0x02

def usb_ENDPOINT_TYPE_INTERRUPT : Nat := 0x03

/-- Modelled from the spec: CDC-ACM endpoint numbers (interrupt/ACM 1,
bulk OUT 2, bulk IN 3). -/
def usb_CDC_ENDPOINT_ACM : Nat := 1

def usb_CDC_ENDPOINT_OUT : Nat := 2

def usb_CDC_ENDPOINT_IN : Nat := 3

/-- Modelled from the spec: bmRequestType type mask and the standard
request type value (USB standard). -/
def usb_REQUEST_TYPE : Nat := 0x60

def usb_REQUEST_STANDARD : Nat := 0x00

/-- Modelled from the spec: bmRequestType recipient mask and the device
recipient value (USB standard). -/
def usb_REQUEST_RECIPIENT : Nat := 0x1F

def usb_REQUEST_DEVICE : Nat := 0x00

/-- Modelled from the spec: standard request codes (USB standard). -/
def usb_GET_STATUS : Nat := 0

def usb_CLEAR_FEATURE : Nat := 1

def usb_SET_FEATURE : Nat := 3

def usb_SET_ADDRESS : Nat := 5

def usb_GET_DESCRIPTOR : Nat := 6

def usb_SET_DESCRIPTOR : Nat := 7

def usb_GET_CONFIGURATION : Nat := 8

def usb_SET_CONFIGURATION : Nat := 9

def usb_GET_INTERFACE : Nat := 10

def usb_SET_INTERFACE : Nat := 11

/-- Modelled from the spec: descriptor type codes (USB standard). -/
def usb_DEVICE_DESCRIPTOR_TYPE : Nat := 1

def usb_CONFIGURATION_DESCRIPTOR_TYPE : Nat := 2

def usb_STRING_DESCRIPTOR_TYPE : Nat := 3

/-- Modelled from the spec: full bmRequestType values of CDC class
requests on the control interface (USB/CDC standard). -/
def usb_REQUEST_DEVICETOHOST_CLASS_INTERFACE : Nat := 0xA1

def usb_REQUEST_HOSTTODEVICE_CLASS_INTERFACE : Nat := 0x21

/-- Modelled from the spec: interface numbers of the CDC-ACM
communication and data interfaces. -/
def usb_CDC_ACM_INTERFACE : Nat := 0

def usb_CDC_DATA_INTERFACE : Nat := 1

/-- Modelled from the spec: CDC class request codes (CDC standard). -/
def usb_CDC_SET_LINE_CODING : Nat := 0x20

def usb_CDC_GET_LINE_CODING : Nat := 0x21

def usb_CDC_SET_CONTROL_LINE_STATE : Nat := 0x22

def usb_CDC_SEND_BREAK : Nat := 0x23

/-- Modelled from the spec: DTR/RTS bits of the CDC line state. -/
def usb_CDC_LINESTATE_DTR : Nat := 0x01

def usb_CDC_LINESTATE_RTS : Nat := 0x02

/-- Modelled from the spec: CDC functional descriptor subtypes and
class codes (CDC standard). -/
def usb_CDC_COMMUNICATION_INTERFACE_CLASS : Nat := 0x02

def usb_CDC_ABSTRACT_CONTROL_MODEL : Nat := 0x02

def usb_CDC_HEADER : Nat := 0x00

def usb_CDC_CALL_MANAGEMENT : Nat := 0x01

def usb_CDC_ABSTRACT_CONTROL_MANAGEMENT : Nat := 0x02

def usb_CDC_UNION : Nat := 0x06

def usb_CDC_V1_10 : Nat := 0x0110

def usb_CDC_DATA_INTERFACE_CLASS : Nat := 0x0A

/-- Modelled from the spec: VID/PID/string indices are configuration
values, not part of the protocol contract (spec section 6). -/
def usb_VID : Nat := 0x2886

def usb_PID : Nat := 0x802D

def usb_IMANUFACTURER : Nat := 1

def usb_IPRODUCT : Nat := 2

def usb_ISERIAL : Nat := 3

/-- Modelled from the spec: configuration descriptor size (9 bytes) and
total CDC descriptor block size, per the USB/CDC standard layouts of
spec section 4.4. -/
def configDescriptorSize : Nat := 9

def cdcSize : Nat := 66

/-- Modelled from the spec: nRF USBD interrupt-enable register bits
(opaque register file of spec section 6; values are the documented bit
positions, only used as opaque masks here). -/
def nrf_USBD_INTENSET_EP0SETUP : Nat := 1 <<< 23

def nrf_USBD_INTENSET_ENDEPOUT0 : Nat := 1 <<< 12

def nrf_USBD_EPOUTEN_OUT0 : Nat := 1

def nrf_USBD_EPINEN_IN0 : Nat := 1

/-! ### Data model -/

/-- CDC line coding plus line state, mirroring the Go cdcLineInfo struct
(fields dwDTERate uint32, bCharFormat/bParityType/bDataBits/lineState
uint8). -/
structure cdcLineInfo where
  dwDTERate : Nat
  bCharFormat : Nat
  bParityType : Nat
  bDataBits : Nat
  lineState : Nat
deriving DecidableEq, Repr

/-- The sendOnEP0DATADONE global of the source: a pending multi-packet
control-transfer continuation.  The Go ptr field always points at offset
usbEndpointPacketSize of the endpoint-0 IN staging buffer when non-nil,
so it is modelled as an optional offset into that buffer. -/
structure EP0Pending where
  ptr : Option Nat
  count : Nat
deriving DecidableEq, Repr

/-- Observable device behaviour triggered by register writes in the
source: DMA starts on IN endpoints (with the byte sequence the DMA would
transmit from the programmed pointer), control-endpoint status/stall
tasks, OUT-endpoint re-arming, and the checkShouldReset policy hook. -/
inductive USBAction where
  | epInSend (ep : Nat) (payload : List Nat)
  | ep0Status
  | ep0Stall
  | ep0RcvOut
  | startEpOut (ep : Nat) (maxcnt : Nat)
  | intenSet (mask : Nat)
  | usbPullup (v : Nat)
  | sizeEpOutSet (ep : Nat) (v : Nat)
  | checkReset
deriving DecidableEq, Repr

/-- The package-level mutable globals of usb_nrf52840.go.  Buffers are
indexed by endpoint number; each staging buffer holds 128 bytes
(udd_ep_in_cache_buffer / udd_ep_out_cache_buffer are [7][128]uint8). -/
structure USBState where
  udd_ep_in_cache_buffer : Nat → List Nat
  udd_ep_out_cache_buffer : Nat → List Nat
  sendOnEP0DATADONE : EP0Pending
  isEndpointHalt : Bool
  isRemoteWakeUpEnabled : Bool
  usbConfiguration : Nat
  usbSetInterface : Nat
  usbLineInfo : cdcLineInfo
  easyDMABusy : Bool
  epout0data_setlinecoding : Bool
  epinen : Nat
  epouten : Nat

/-- A decoded setup packet (the usbSetup struct). -/
structure usbSetup where
  bmRequestType : Nat
  bRequest : Nat
  wValueL : Nat
  wValueH : Nat
  wIndex : Nat
  wLength : Nat
deriving DecidableEq, Repr

/-- The endPoints table of the source: control, interrupt-IN, bulk-OUT,
bulk-IN. -/
def endPoints : List Nat :=
  [usb_ENDPOINT_TYPE_CONTROL,
   usb_ENDPOINT_TYPE_INTERRUPT ||| usbEndpointIn,
   usb_ENDPOINT_TYPE_BULK ||| usbEndpointOut,
   usb_ENDPOINT_TYPE_BULK ||| usbEndpointIn]

/-- The boot values of the globals: zeroed buffers, no pending
continuation, default line coding 115200 8N1 with line state 0. -/
def initUSBState : USBState where
  udd_ep_in_cache_buffer := fun _ => List.replicate 128 0
  udd_ep_out_cache_buffer := fun _ => List.replicate 128 0
  sendOnEP0DATADONE := ⟨none, 0⟩
  isEndpointHalt := false
  isRemoteWakeUpEnabled := false
  usbConfiguration := 0
  usbSetInterface := 0
  usbLineInfo := ⟨115200, 0x00, 0x00, 0x08, 0x00⟩
  easyDMABusy := false
  epout0data_setlinecoding := false
  epinen := 0
  epouten := 0

/-! ### Endpoint I/O and DMA arbitration -/

/-- Go built-in copy(dst, src): overwrites the first min(len dst, len src)
elements of dst with those of src, keeping the tail of dst. -/
def goCopy (dst src : List Nat) : List Nat :=
  src.take dst.length ++ dst.drop src.length

/-- enterCriticalSection: waitForEasyDMA spins until easyDMABusy is
clear, then the flag is set.  This def gives the post-state of a call
that has completed its wait (the releaser is interrupt context); the
blocking behaviour itself is modelled by csStep below. -/
def enterCriticalSection (s : USBState) : USBState :=
  { s with easyDMABusy := true }

/-- exitCriticalSection: clear the easyDMABusy flag. -/
def exitCriticalSection (s : USBState) : USBState :=
  { s with easyDMABusy := false }

/-- sendViaEPIn(ep, ptr, count): program the IN DMA registers and trigger
the start task.  The observable payload is the count bytes at the
programmed pointer. -/
def sendViaEPIn (ep : Nat) (payload : List Nat) : List USBAction :=
  [USBAction.epInSend ep payload]

/-- sendUSBPacket(ep, data): copy data into the endpoint IN staging
buffer; on the control endpoint a response longer than one max packet
sends only the first 64 bytes now and records the remainder (offset 64,
count len-64) in sendOnEP0DATADONE. -/
def sendUSBPacket (ep : Nat) (data : List Nat) (s : USBState) :
    USBState × List USBAction :=
  let count := data.length
  let buf := goCopy (s.udd_ep_in_cache_buffer ep) data
  let s1 := { s with udd_ep_in_cache_buffer :=
    fun e => if e = ep then buf else s.udd_ep_in_cache_buffer e }
  if ep = 0 ∧ count > usbEndpointPacketSize then
    let s2 := { s1 with sendOnEP0DATADONE :=
      ⟨some usbEndpointPacketSize, count - usbEndpointPacketSize⟩ }
    (s2, sendViaEPIn ep (buf.take usbEndpointPacketSize))
  else
    (s1, sendViaEPIn ep (buf.take count))

/-- enableEPOut: OR the endpoint bit into the epouten mirror (and write
it to the EPOUTEN register). -/
def enableEPOut (ep : Nat) (s : USBState) : USBState :=
  { s with epouten := s.epouten ||| (nrf_USBD_EPOUTEN_OUT0 <<< ep) }

/-- enableEPIn: OR the endpoint bit into the epinen mirror (and write it
to the EPINEN register). -/
def enableEPIn (ep : Nat) (s : USBState) : USBState :=
  { s with epinen := s.epinen ||| (nrf_USBD_EPINEN_IN0 <<< ep) }

/-- initEndpoint(ep, config): switch on the endpoint configuration
value, enabling the endpoint and arming OUT size / interrupt enables as
in the source. -/
def initEndpoint (ep config : Nat) (s : USBState) :
    USBState × List USBAction :=
  if config = usb_ENDPOINT_TYPE_INTERRUPT ||| usbEndpointIn then
    (enableEPIn ep s, [])
  else if config = usb_ENDPOINT_TYPE_BULK ||| usbEndpointOut then
    (enableEPOut ep s,
      [USBAction.intenSet (nrf_USBD_INTENSET_ENDEPOUT0 <<< ep),
       USBAction.sizeEpOutSet ep 0])
  else if config = usb_ENDPOINT_TYPE_INTERRUPT ||| usbEndpointOut then
    (enableEPOut ep s,
      [USBAction.intenSet (nrf_USBD_INTENSET_ENDEPOUT0 <<< ep),
       USBAction.sizeEpOutSet ep 0])
  else if config = usb_ENDPOINT_TYPE_BULK ||| usbEndpointIn then
    (enableEPIn ep s, [])
  else if config = usb_ENDPOINT_TYPE_CONTROL then
    (enableEPOut 0 (enableEPIn 0 s),
      [USBAction.intenSet nrf_USBD_INTENSET_ENDEPOUT0, USBAction.ep0Status])
  else
    (s, [])

/-! ### Line coding -/

/-- parseUSBLineInfo(b): decode a little-endian 7-byte CDC line-coding
payload into the line-info globals, leaving lineState untouched.
The source ORs the four shifted rate bytes as uint32 values. -/
def parseUSBLineInfo (b : List Nat) (li : cdcLineInfo) : cdcLineInfo :=
  { li with
      dwDTERate :=
        b.getD 0 0 ||| (b.getD 1 0 <<< 8) ||| (b.getD 2 0 <<< 16) |||
          (b.getD 3 0 <<< 24)
      bCharFormat := b.getD 4 0
      bParityType := b.getD 5 0
      bDataBits := b.getD 6 0 }

/-- The 7-byte GET_LINE_CODING response body built inside cdcSetup
(source lines 352-359): little-endian 32-bit baud rate followed by the
charFormat, parityType and dataBits bytes.  The byte casts of the rate
are truncations mod 256; the last three fields are already uint8. -/
def lineCodingBytes (li : cdcLineInfo) : List Nat :=
  [li.dwDTERate % 256,
   (li.dwDTERate >>> 8) % 256,
   (li.dwDTERate >>> 16) % 256,
   (li.dwDTERate >>> 24) % 256,
   li.bCharFormat,
   li.bParityType,
   li.bDataBits]

/-! ### Descriptor builder

The descriptor constructors (NewDeviceDescriptor and friends with their
Bytes methods, strToUTF16LEDescriptor, and the product/manufacturer
strings) live in the shared usb.go of the machine package, which is not
under src.  They are modelled from the spec (section 4.4): pure encoders
producing the bit-exact USB/CDC standard byte layouts. -/

/-- Little-endian 16-bit field. -/
def u16LE (v : Nat) : List Nat := [v % 256, v / 256 % 256]

/-- Modelled from the spec: the 18-byte USB device descriptor layout
(length, type 1, bcdUSB 2.0, class/subclass/protocol, max packet size,
VID, PID, bcdDevice, string indices, configuration count).
NewDeviceDescriptor(class, subClass, proto, packetSize0, vid, pid,
version, im, ip, is, configs).Bytes() in the source. -/
def deviceDescriptorBytes (bDeviceClass bDeviceSubClass bDeviceProtocol
    bMaxPacketSize0 idVendor idProduct bcdDevice iManufacturer iProduct
    iSerialNumber bNumConfigurations : Nat) : List Nat :=
  [18, 1] ++ u16LE 0x0200 ++
    [bDeviceClass, bDeviceSubClass, bDeviceProtocol, bMaxPacketSize0] ++
    u16LE idVendor ++ u16LE idProduct ++ u16LE bcdDevice ++
    [iManufacturer, iProduct, iSerialNumber, bNumConfigurations]

/-- Modelled from the spec: the 9-byte configuration descriptor
(NewConfigDescriptor(totalLength, interfaces).Bytes()). -/
def configDescriptorBytes (totalLength interfaces : Nat) : List Nat :=
  [9, 2] ++ u16LE totalLength ++ [interfaces, 1, 0, 0xA0, 50]

/-- Modelled from the spec: the 8-byte interface association descriptor
(NewIADDescriptor(firstInterface, count, cls, subClass, protocol)). -/
def iadDescriptorBytes (firstInterface count cls subClass protocol : Nat) :
    List Nat :=
  [8, 0x0B, firstInterface, count, cls, subClass, protocol, 0]

/-- Modelled from the spec: the 9-byte interface descriptor
(NewInterfaceDescriptor(n, numEndpoints, cls, subClass, protocol)). -/
def interfaceDescriptorBytes (n numEndpoints cls subClass protocol : Nat) :
    List Nat :=
  [9, 4, n, 0, numEndpoints, cls, subClass, protocol, 0]

/-- Modelled from the spec: a 5-byte class-specific CDC functional
descriptor (NewCDCCSInterfaceDescriptor(subtype, d0, d1)). -/
def cdcCSInterfaceDescriptorBytes (subtype d0 d1 : Nat) : List Nat :=
  [5, 0x24, subtype, d0, d1]

/-- Modelled from the spec: the 4-byte ACM functional descriptor
(NewACMFunctionalDescriptor(subtype, d0)). -/
def acmFunctionalDescriptorBytes (subtype d0 : Nat) : List Nat :=
  [4, 0x24, subtype, d0]

/-- Modelled from the spec: the 5-byte call-management functional
descriptor (NewCMFunctionalDescriptor(subtype, d0, d1)). -/
def cmFunctionalDescriptorBytes (subtype d0 d1 : Nat) : List Nat :=
  [5, 0x24, subtype, d0, d1]

/-- Modelled from the spec: the 7-byte endpoint descriptor
(NewEndpointDescriptor(addr, attr, packetSize, interval)). -/
def endpointDescriptorBytes (addr attr packetSize interval : Nat) :
    List Nat :=
  [7, 5, addr, attr] ++ u16LE packetSize ++ [interval]

/-- Modelled from the spec: strToUTF16LEDescriptor - a 2-byte
length+type header followed by the UTF-16LE code units of the text. -/
def strToUTF16LEDescriptor (s : List Nat) : List Nat :=
  (2 * s.length + 2) % 256 :: 0x03 ::
    (s.map fun c => [c % 256, c / 256 % 256]).flatten

/-- Modelled from the spec: product string content is a configuration
value (spec section 6); any fixed text works for the claims. -/
def usb_STRING_PRODUCT : List Nat := [84, 105, 110, 121, 71, 111]

/-- Modelled from the spec: manufacturer string content is a
configuration value. -/
def usb_STRING_MANUFACTURER : List Nat := [84, 105, 110, 121, 71, 111]

/-- sendConfiguration: a 9-byte probe (wLength 9) gets the bare
configuration descriptor; otherwise the configuration descriptor is
concatenated with the full CDC descriptor block (built in the source
from the modelled constructors, in source order). -/
def sendConfiguration (setup : usbSetup) (s : USBState) :
    USBState × List USBAction :=
  if setup.wLength = 9 then
    sendUSBPacket 0
      (configDescriptorBytes (configDescriptorSize + cdcSize) 2) s
  else
    let iad := iadDescriptorBytes 0 2 usb_CDC_COMMUNICATION_INTERFACE_CLASS
      usb_CDC_ABSTRACT_CONTROL_MODEL 0
    let cif := interfaceDescriptorBytes usb_CDC_ACM_INTERFACE 1
      usb_CDC_COMMUNICATION_INTERFACE_CLASS usb_CDC_ABSTRACT_CONTROL_MODEL 0
    let header := cdcCSInterfaceDescriptorBytes usb_CDC_HEADER
      (usb_CDC_V1_10 &&& 0xFF) ((usb_CDC_V1_10 >>> 8) &&& 0x0FF)
    let controlManagement := acmFunctionalDescriptorBytes
      usb_CDC_ABSTRACT_CONTROL_MANAGEMENT 6
    let functionalDescriptor := cdcCSInterfaceDescriptorBytes usb_CDC_UNION
      usb_CDC_ACM_INTERFACE usb_CDC_DATA_INTERFACE
    let callManagement := cmFunctionalDescriptorBytes
      usb_CDC_CALL_MANAGEMENT 1 1
    let cifin := endpointDescriptorBytes
      (usb_CDC_ENDPOINT_ACM ||| usbEndpointIn)
      usb_ENDPOINT_TYPE_INTERRUPT 0x10 0x10
    let dif := interfaceDescriptorBytes usb_CDC_DATA_INTERFACE 2
      usb_CDC_DATA_INTERFACE_CLASS 0 0
    let out := endpointDescriptorBytes
      (usb_CDC_ENDPOINT_OUT ||| usbEndpointOut)
      usb_ENDPOINT_TYPE_BULK usbEndpointPacketSize 0
    let inn := endpointDescriptorBytes
      (usb_CDC_ENDPOINT_IN ||| usbEndpointIn)
      usb_ENDPOINT_TYPE_BULK usbEndpointPacketSize 0
    let cdc := iad ++ cif ++ header ++ controlManagement ++
      functionalDescriptor ++ callManagement ++ cifin ++ dif ++ out ++ inn
    sendUSBPacket 0
      (configDescriptorBytes (configDescriptorSize + cdcSize) 2 ++ cdc) s

/-- sendDescriptor: dispatch on the descriptor type in wValueH.  A
device-descriptor request with wLength 8 gets the first 8 bytes of the
composite-form descriptor (class EF/02/01); any other wLength gets the
complete full-form descriptor (class 02/00/00). -/
def sendDescriptor (setup : usbSetup) (s : USBState) :
    USBState × List USBAction :=
  if setup.wValueH = usb_CONFIGURATION_DESCRIPTOR_TYPE then
    sendConfiguration setup s
  else if setup.wValueH = usb_DEVICE_DESCRIPTOR_TYPE then
    if setup.wLength = 8 then
      sendUSBPacket 0
        ((deviceDescriptorBytes 0xEF 0x02 0x01 64 usb_VID usb_PID 0x100
          usb_IMANUFACTURER usb_IPRODUCT usb_ISERIAL 1).take 8) s
    else
      sendUSBPacket 0
        (deviceDescriptorBytes 0x02 0x00 0x00 64 usb_VID usb_PID 0x100
          usb_IMANUFACTURER usb_IPRODUCT usb_ISERIAL 1) s
  else if setup.wValueH = usb_STRING_DESCRIPTOR_TYPE then
    if setup.wValueL = 0 then
      sendUSBPacket 0 [0x04, 0x03, 0x09, 0x04] s
    else if setup.wValueL = usb_IPRODUCT then
      let b := strToUTF16LEDescriptor usb_STRING_PRODUCT
      if setup.wLength = 2 then sendUSBPacket 0 (b.take 2) s
      else sendUSBPacket 0 b s
    else if setup.wValueL = usb_IMANUFACTURER then
      let b := strToUTF16LEDescriptor usb_STRING_MANUFACTURER
      if setup.wLength = 2 then sendUSBPacket 0 (b.take 2) s
      else sendUSBPacket 0 b s
    else if setup.wValueL = usb_ISERIAL then
      (s, [USBAction.ep0Status])
    else
      (s, [])
  else
    (s, [USBAction.ep0Status])

/-! ### Control transfer state machine -/

/-- handleStandardSetup: dispatch on the standard request code; the
Boolean is the Go return value (success / stall-needed). -/
def handleStandardSetup (setup : usbSetup) (s : USBState) :
    Bool × USBState × List USBAction :=
  if setup.bRequest = usb_GET_STATUS then
    let buf : List Nat :=
      if setup.bmRequestType ≠ 0 then
        if s.isEndpointHalt then [1, 0] else [0, 0]
      else [0, 0]
    let (s1, a1) := sendUSBPacket 0 buf s
    (true, s1, a1)
  else if setup.bRequest = usb_CLEAR_FEATURE then
    let s1 :=
      if setup.wValueL = 1 then { s with isRemoteWakeUpEnabled := false }
      else if setup.wValueL = 0 then { s with isEndpointHalt := false }
      else s
    (true, s1, [USBAction.ep0Status])
  else if setup.bRequest = usb_SET_FEATURE then
    let s1 :=
      if setup.wValueL = 1 then { s with isRemoteWakeUpEnabled := true }
      else if setup.wValueL = 0 then { s with isEndpointHalt := true }
      else s
    (true, s1, [USBAction.ep0Status])
  else if setup.bRequest = usb_SET_ADDRESS then
    (true, s, [])
  else if setup.bRequest = usb_GET_DESCRIPTOR then
    let (s1, a1) := sendDescriptor setup s
    (true, s1, a1)
  else if setup.bRequest = usb_SET_DESCRIPTOR then
    (false, s, [])
  else if setup.bRequest = usb_GET_CONFIGURATION then
    let (s1, a1) := sendUSBPacket 0 [s.usbConfiguration] s
    (true, s1, a1)
  else if setup.bRequest = usb_SET_CONFIGURATION then
    if setup.bmRequestType &&& usb_REQUEST_RECIPIENT = usb_REQUEST_DEVICE then
      let (s1, a1) := ((List.range endPoints.length).drop 1).foldl
        (fun acc i =>
          let (st, ac) := initEndpoint i (endPoints.getD i 0) acc.1
          (st, acc.2 ++ ac))
        (s, ([USBAction.ep0Status] : List USBAction))
      (true, { s1 with usbConfiguration := setup.wValueL }, a1)
    else
      (false, s, [])
  else if setup.bRequest = usb_GET_INTERFACE then
    let (s1, a1) := sendUSBPacket 0 [s.usbSetInterface] s
    (true, s1, a1)
  else if setup.bRequest = usb_SET_INTERFACE then
    (true, { s with usbSetInterface := setup.wValueL },
      [USBAction.ep0Status])
  else
    (true, s, [])

/-- cdcSetup: the CDC class request handler.  GET_LINE_CODING responds
with the 7-byte encoding; SET_LINE_CODING arms the EP0 OUT data phase;
SET_CONTROL_LINE_STATE stores wValueL into lineState, calls the
checkShouldReset hook and enters the status stage; SEND_BREAK only
acknowledges.  A device-to-host class request other than
GET_LINE_CODING falls through to the final return false; a host-to-device
class request returns true even when no bRequest matched. -/
def cdcSetup (setup : usbSetup) (s : USBState) :
    Bool × USBState × List USBAction :=
  if setup.bmRequestType = usb_REQUEST_DEVICETOHOST_CLASS_INTERFACE then
    if setup.bRequest = usb_CDC_GET_LINE_CODING then
      let (s1, a1) := sendUSBPacket 0 (lineCodingBytes s.usbLineInfo) s
      (true, s1, a1)
    else
      (false, s, [])
  else if setup.bmRequestType = usb_REQUEST_HOSTTODEVICE_CLASS_INTERFACE then
    if setup.bRequest = usb_CDC_SET_LINE_CODING then
      (true, { s with epout0data_setlinecoding := true },
        [USBAction.ep0RcvOut])
    else
      let (s1, a1) :=
        if setup.bRequest = usb_CDC_SET_CONTROL_LINE_STATE then
          ({ s with usbLineInfo :=
              { s.usbLineInfo with lineState := setup.wValueL } },
            [USBAction.checkReset, USBAction.ep0Status])
        else (s, [])
      let a2 :=
        if setup.bRequest = usb_CDC_SEND_BREAK then
          [USBAction.ep0Status]
        else []
      (true, s1, a1 ++ a2)
  else
    (false, s, [])

/-! ### Interrupt dispatcher branches

handleInterrupt polls the latched events in a fixed order; each branch
below is one event class, taking the hardware-provided inputs (latched
setup packet fields, OUT byte counts) as arguments. -/

/-- The USBEVENT branch of handleInterrupt (source lines 111-125) in the
case where the EVENTCAUSE READY bit is latched: configure the control
endpoint, enable the setup interrupt, arm the pullup, and reset
usbConfiguration to 0. -/
def handleUSBEventReady (s : USBState) : USBState × List USBAction :=
  let (s1, a1) := initEndpoint 0 usb_ENDPOINT_TYPE_CONTROL s
  ({ s1 with usbConfiguration := 0 },
    a1 ++ [USBAction.intenSet nrf_USBD_INTENSET_EP0SETUP,
           USBAction.usbPullup 1])

/-- The EP0DATADONE branch of handleInterrupt (source lines 127-151):
with a SET_LINE_CODING data phase pending, arm a 64-byte EP0 OUT read;
otherwise send the recorded multi-packet continuation (the
sendOnEP0DATADONE.count bytes at offset ptr of the endpoint-0 IN staging
buffer) and clear the pointer, or, with nothing pending, enter the
status stage. -/
def handleEP0DataDone (s : USBState) : USBState × List USBAction :=
  if s.epout0data_setlinecoding then
    (s, [USBAction.startEpOut 0 64])
  else
    match s.sendOnEP0DATADONE.ptr with
    | some off =>
        ({ s with sendOnEP0DATADONE :=
            { s.sendOnEP0DATADONE with ptr := none } },
          sendViaEPIn 0
            (((s.udd_ep_in_cache_buffer 0).drop off).take
              s.sendOnEP0DATADONE.count))
    | none => (s, [USBAction.ep0Status])

/-- The EP0SETUP branch of handleInterrupt (source lines 154-175):
decode the setup packet, dispatch standard requests to
handleStandardSetup and class requests for the CDC-ACM interface to
cdcSetup, and stall endpoint 0 when the handler fails. -/
def handleEP0Setup (setup : usbSetup) (s : USBState) :
    USBState × List USBAction :=
  let (ok, s1, a1) :=
    if setup.bmRequestType &&& usb_REQUEST_TYPE = usb_REQUEST_STANDARD then
      handleStandardSetup setup s
    else if setup.wIndex = usb_CDC_ACM_INTERFACE then
      cdcSetup setup s
    else
      (false, s, [])
  if ok then (s1, a1) else (s1, a1 ++ [USBAction.ep0Stall])

/-- The ENDEPOUT[0] branch of handleInterrupt (source lines 209-224 with
i = 0): when a SET_LINE_CODING data phase was pending, clear that flag,
parse the payload only when the DMA-reported count is at least 7 (then
run the checkShouldReset hook), and enter the status stage either way;
the branch ends with exitCriticalSection.  count is the value of the
SIZE.EPOUT[0] register. -/
def handleEndEpOut0 (count : Nat) (s : USBState) :
    USBState × List USBAction :=
  if s.epout0data_setlinecoding then
    let s1 := { s with epout0data_setlinecoding := false }
    if count ≥ 7 then
      let s2 := { s1 with
        usbLineInfo := parseUSBLineInfo
          ((s1.udd_ep_out_cache_buffer 0).take count) s1.usbLineInfo }
      (exitCriticalSection s2,
        [USBAction.checkReset, USBAction.ep0Status])
    else
      (exitCriticalSection s1, [USBAction.ep0Status])
  else
    (exitCriticalSection s, [])

/-! ### Serial-interface facade -/

/-- USBCDC.WriteByte: when lineState is nonzero, take the DMA critical
section, store the byte at offset 0 of the bulk-IN staging buffer and
start a one-byte IN transfer; otherwise do nothing.  The Go error result
is always nil, modelled as the third component none. -/
def WriteByte (c : Nat) (s : USBState) :
    USBState × List USBAction × Option Unit :=
  if s.usbLineInfo.lineState > 0 then
    let s1 := enterCriticalSection s
    let buf := (s1.udd_ep_in_cache_buffer usb_CDC_ENDPOINT_IN).set 0 c
    let s2 := { s1 with udd_ep_in_cache_buffer :=
      fun e => if e = usb_CDC_ENDPOINT_IN then buf
               else s1.udd_ep_in_cache_buffer e }
    (s2, sendViaEPIn usb_CDC_ENDPOINT_IN (buf.take 1), none)
  else
    (s, [], none)

/-- USBCDC.DTR: read the DTR bit of the line state. -/
def DTR (s : USBState) : Bool :=
  s.usbLineInfo.lineState &&& usb_CDC_LINESTATE_DTR > 0

/-- USBCDC.RTS: read the RTS bit of the line state. -/
def RTS (s : USBState) : Bool :=
  s.usbLineInfo.lineState &&& usb_CDC_LINESTATE_RTS > 0

/-! ### DMA critical-section trace model

enterCriticalSection busy-waits until easyDMABusy is clear and then sets
it; exitCriticalSection clears it from interrupt context.  A trace is a
list of completed operations; an enter can only complete from a clear
flag (csStep returns none on an enter attempted against a set flag, so
such an interleaving is not a valid completed trace). -/

/-- One completed critical-section operation. -/
inductive CSOp where
  | enter
  | exit
deriving DecidableEq, Repr

/-- The effect of one completed operation on the easyDMABusy flag:
enterCriticalSection only completes (and sets the flag) when the flag is
clear; exitCriticalSection clears it unconditionally. -/
def csStep : CSOp → Bool → Option Bool
  | CSOp.enter, b => if b then none else some true
  | CSOp.exit, _ => some false

/-- Run a trace of completed operations from a flag value. -/
def csRun : List CSOp → Bool → Option Bool
  | [], b => some b
  | op :: rest, b =>
      match csStep op b with
      | none => none
      | some bb => csRun rest bb

/-! ### Helper lemmas -/

/-- The Go copy into a destination at least as long as the source keeps
the destination tail. -/
theorem goCopy_of_le (dst src : List Nat) (h : src.length ≤ dst.length) :
    goCopy dst src = src ++ dst.drop src.length := by
  unfold goCopy
  rw [List.take_of_length_le h]

/-- The Go copy into a destination shorter than the source truncates the
source at the destination length. -/
theorem goCopy_of_ge (dst src : List Nat) (h : dst.length ≤ src.length) :
    goCopy dst src = src.take dst.length := by
  unfold goCopy
  rw [List.drop_eq_nil_of_le h, List.append_nil]

/-- sendUSBPacket always leaves the endpoint IN staging buffer equal to
the copy of the data over the old buffer, in both the single-packet and
the multi-packet branch. -/
theorem sendUSBPacket_buffer (ep : Nat) (data : List Nat) (s : USBState) :
    (sendUSBPacket ep data s).1.udd_ep_in_cache_buffer ep =
      goCopy (s.udd_ep_in_cache_buffer ep) data := by
  unfold sendUSBPacket
  dsimp only
  split <;> simp

/-- A control-endpoint response longer than one max packet records
offset 64 and the remaining count in sendOnEP0DATADONE. -/
theorem sendUSBPacket_pending (data : List Nat) (s : USBState)
    (h : 64 < data.length) :
    (sendUSBPacket 0 data s).1.sendOnEP0DATADONE =
      ⟨some 64, data.length - 64⟩ := by
  unfold sendUSBPacket
  rw [if_pos ⟨rfl, h⟩]
  rfl

/-- A control-endpoint response longer than one max packet emits exactly
one DMA start carrying the first 64 bytes of the copied buffer. -/
theorem sendUSBPacket_first (data : List Nat) (s : USBState)
    (h : 64 < data.length) :
    (sendUSBPacket 0 data s).2 =
      [USBAction.epInSend 0
        ((goCopy (s.udd_ep_in_cache_buffer 0) data).take 64)] := by
  unfold sendUSBPacket
  rw [if_pos ⟨rfl, h⟩]
  rfl

/-- sendUSBPacket does not change the SET_LINE_CODING pending flag. -/
theorem sendUSBPacket_setlinecoding (ep : Nat) (data : List Nat)
    (s : USBState) :
    (sendUSBPacket ep data s).1.epout0data_setlinecoding =
      s.epout0data_setlinecoding := by
  unfold sendUSBPacket
  dsimp only
  split <;> rfl

/-- Copying data of length at most the 128-byte staging buffer preserves
every byte of the data as a prefix of the buffer. -/
theorem goCopy_append_form (dst src : List Nat)
    (h : src.length ≤ dst.length) :
    goCopy dst src = src ++ dst.drop src.length :=
  goCopy_of_le dst src h

/-- Taking at most the source length from the copied buffer yields the
corresponding prefix of the source. -/
theorem goCopy_take (dst src : List Nat) (n : Nat)
    (hsrc : src.length ≤ dst.length) (hn : n ≤ src.length) :
    (goCopy dst src).take n = src.take n := by
  rw [goCopy_of_le dst src hsrc, List.take_append_eq_append_take,
    Nat.sub_eq_zero_of_le hn, List.take_zero, List.append_nil]

/-- Dropping then taking inside the copied buffer recovers the matching
slice of the source. -/
theorem goCopy_drop_take (dst src : List Nat) (n : Nat)
    (hsrc : src.length ≤ dst.length) (hn : n ≤ src.length) :
    ((goCopy dst src).drop n).take (src.length - n) = src.drop n := by
  rw [goCopy_of_le dst src hsrc, List.drop_append_eq_append_drop,
    Nat.sub_eq_zero_of_le hn, List.drop_zero,
    List.take_append_eq_append_take]
  have hlen : (src.drop n).length = src.length - n := List.length_drop n src
  rw [List.take_of_length_le (le_of_eq hlen), hlen, Nat.sub_self,
    List.take_zero, List.append_nil]

/-- Setting the head of a 128-byte buffer and taking one byte yields
exactly that byte. -/
theorem set_take_one (l : List Nat) (c : Nat) (h : l.length = 128) :
    (l.set 0 c).take 1 = [c] := by
  cases l with
  | nil => simp at h
  | cons a t => rfl

/-- An EP0-data-done event with no SET_LINE_CODING data phase pending
and a recorded continuation sends the recorded slice of the endpoint-0
IN staging buffer and clears the pointer, keeping the count. -/
theorem handleEP0DataDone_pending (t : USBState)
    (hlc : t.epout0data_setlinecoding = false) (off cnt : Nat)
    (hp : t.sendOnEP0DATADONE = ⟨some off, cnt⟩) :
    handleEP0DataDone t =
      ({ t with sendOnEP0DATADONE := ⟨none, cnt⟩ },
        [USBAction.epInSend 0
          (((t.udd_ep_in_cache_buffer 0).drop off).take cnt)]) := by
  unfold handleEP0DataDone
  rw [if_neg (by rw [hlc]; exact Bool.false_ne_true), hp]
  rfl

/-- An EP0-data-done event with no SET_LINE_CODING data phase pending
and no recorded continuation only enters the status stage. -/
theorem handleEP0DataDone_none (t : USBState)
    (hlc : t.epout0data_setlinecoding = false)
    (hp : t.sendOnEP0DATADONE.ptr = none) :
    handleEP0DataDone t = (t, [USBAction.ep0Status]) := by
  unfold handleEP0DataDone
  rw [if_neg (by rw [hlc]; exact Bool.false_ne_true), hp]

/-! ### Claim C1 -/

/-- Claim C1, counterexample: the claim quantifies over every
control-endpoint response longer than 64 bytes, but for a 129-byte
response the copy into the 128-byte staging buffer truncates the data,
so the initial packet concatenated with the continuation packet sent
after the EP0-data-done event is not the original response. -/
theorem usb_C1_counterexample :
    (sendUSBPacket 0 (List.replicate 129 1) initUSBState).2 =
      [USBAction.epInSend 0 (List.replicate 64 1)]
  ∧ (handleEP0DataDone
        (sendUSBPacket 0 (List.replicate 129 1) initUSBState).1).2 =
      [USBAction.epInSend 0 (List.replicate 64 1)]
  ∧ List.replicate 64 1 ++ List.replicate 64 1 ≠
      (List.replicate 129 1 : List Nat) := by
  decide

/-- Claim C1 as amended: restricted to responses of length at most the
128-byte staging buffer (and with no SET_LINE_CODING data phase
pending), a control response longer than 64 bytes produces an initial
64-byte packet, records offset 64 and the remaining count in
sendOnEP0DATADONE, sends exactly one continuation carrying the remaining
bytes on the next EP0-data-done event, clears the pointer, and the next
EP0-data-done after that only enters the status stage; the two packets
concatenate to the original response in order. -/
theorem usb_C1_amended (data : List Nat) (s : USBState)
    (h64 : 64 < data.length) (h128 : data.length ≤ 128)
    (hbuf : (s.udd_ep_in_cache_buffer 0).length = 128)
    (hlc : s.epout0data_setlinecoding = false) :
    (sendUSBPacket 0 data s).2 =
      [USBAction.epInSend 0 (data.take 64)]
  ∧ (data.take 64).length = 64
  ∧ (sendUSBPacket 0 data s).1.sendOnEP0DATADONE =
      ⟨some 64, data.length - 64⟩
  ∧ (handleEP0DataDone (sendUSBPacket 0 data s).1).2 =
      [USBAction.epInSend 0 (data.drop 64)]
  ∧ data.take 64 ++ data.drop 64 = data
  ∧ (handleEP0DataDone
        (sendUSBPacket 0 data s).1).1.sendOnEP0DATADONE.ptr = none
  ∧ (handleEP0DataDone
        (handleEP0DataDone (sendUSBPacket 0 data s).1).1).2 =
      [USBAction.ep0Status] := by
  have hsrc : data.length ≤ (s.udd_ep_in_cache_buffer 0).length := by omega
  have hfirst : (sendUSBPacket 0 data s).2 =
      [USBAction.epInSend 0 (data.take 64)] := by
    rw [sendUSBPacket_first data s h64,
      goCopy_take _ _ 64 hsrc (by omega)]
  have hpend := sendUSBPacket_pending data s h64
  have hlc1 : (sendUSBPacket 0 data s).1.epout0data_setlinecoding = false := by
    rw [sendUSBPacket_setlinecoding, hlc]
  have hbuf1 := sendUSBPacket_buffer 0 data s
  have hdd := handleEP0DataDone_pending (sendUSBPacket 0 data s).1 hlc1 64
    (data.length - 64) hpend
  have hcont : (handleEP0DataDone (sendUSBPacket 0 data s).1).2 =
      [USBAction.epInSend 0 (data.drop 64)] := by
    rw [hdd, hbuf1]
    dsimp only
    rw [goCopy_drop_take _ _ 64 hsrc (by omega)]
  have hclear : (handleEP0DataDone
      (sendUSBPacket 0 data s).1).1.sendOnEP0DATADONE.ptr = none := by
    rw [hdd]
  have hlc2 : (handleEP0DataDone
      (sendUSBPacket 0 data s).1).1.epout0data_setlinecoding = false := by
    rw [hdd]
    exact hlc1
  have hstatus : (handleEP0DataDone
      (handleEP0DataDone (sendUSBPacket 0 data s).1).1).2 =
      [USBAction.ep0Status] := by
    rw [handleEP0DataDone_none _ hlc2 hclear]
  exact ⟨hfirst, by rw [List.length_take]; omega, hpend, hcont,
    List.take_append_drop 64 data, hclear, hstatus⟩

/-- Claim C1 witness: the amended theorem applied to a concrete 70-byte
response from the boot state. -/
theorem usb_C1_witness :
    (64 < (List.range 70).length ∧ (List.range 70).length ≤ 128
      ∧ (initUSBState.udd_ep_in_cache_buffer 0).length = 128
      ∧ initUSBState.epout0data_setlinecoding = false)
  ∧ ((sendUSBPacket 0 (List.range 70) initUSBState).2 =
      [USBAction.epInSend 0 ((List.range 70).take 64)]
    ∧ ((List.range 70).take 64).length = 64
    ∧ (sendUSBPacket 0 (List.range 70) initUSBState).1.sendOnEP0DATADONE =
        ⟨some 64, (List.range 70).length - 64⟩
    ∧ (handleEP0DataDone (sendUSBPacket 0 (List.range 70) initUSBState).1).2 =
        [USBAction.epInSend 0 ((List.range 70).drop 64)]
    ∧ (List.range 70).take 64 ++ (List.range 70).drop 64 = List.range 70
    ∧ (handleEP0DataDone
          (sendUSBPacket 0 (List.range 70)
            initUSBState).1).1.sendOnEP0DATADONE.ptr = none
    ∧ (handleEP0DataDone
          (handleEP0DataDone (sendUSBPacket 0 (List.range 70)
            initUSBState).1).1).2 = [USBAction.ep0Status]) :=
  ⟨⟨by decide, by decide, by decide, by decide⟩,
    usb_C1_amended (List.range 70) initUSBState (by decide) (by decide)
      (by decide) (by decide)⟩

/-! ### Claim C10 -/

/-- Claim C10: the bytes available for a control-endpoint send are
bounded by the 128-byte IN staging buffer.  A response of length at most
128 is preserved in full by the copy; a longer response has only its
first 128 bytes copied while the recorded continuation count stays
len - 64, and there is a concrete response longer than 128 bytes for
which the initial packet concatenated with the continuation is not the
original data (the continuation covers bytes never copied). -/
theorem usb_C10 :
    (∀ (data : List Nat) (s : USBState),
      (s.udd_ep_in_cache_buffer 0).length = 128 → data.length ≤ 128 →
      ((sendUSBPacket 0 data s).1.udd_ep_in_cache_buffer 0).take
        data.length = data)
  ∧ (∀ (data : List Nat) (s : USBState),
      (s.udd_ep_in_cache_buffer 0).length = 128 → 128 < data.length →
      (sendUSBPacket 0 data s).1.udd_ep_in_cache_buffer 0 = data.take 128
      ∧ (sendUSBPacket 0 data s).1.sendOnEP0DATADONE.count =
          data.length - 64)
  ∧ (∃ data : List Nat, 128 < data.length
      ∧ (sendUSBPacket 0 data initUSBState).2 =
          [USBAction.epInSend 0 (data.take 64)]
      ∧ (handleEP0DataDone (sendUSBPacket 0 data initUSBState).1).2 =
          [USBAction.epInSend 0 ((data.take 128).drop 64)]
      ∧ data.take 64 ++ (data.take 128).drop 64 ≠ data) := by
  refine ⟨?_, ?_, ?_⟩
  · intro data s hbuf hlen
    rw [sendUSBPacket_buffer, goCopy_take _ _ data.length (by omega)
      (le_refl _), List.take_length]
  · intro data s hbuf hlen
    constructor
    · rw [sendUSBPacket_buffer, goCopy_of_ge _ _ (by omega), hbuf]
    · rw [sendUSBPacket_pending data s (by omega)]
  · exact ⟨List.replicate 129 1, by decide, by decide, by decide, by decide⟩

/-- Claim C10 witness: both universally quantified parts applied to
concrete inputs (a 100-byte and a 129-byte response from the boot
state). -/
theorem usb_C10_witness :
    ((initUSBState.udd_ep_in_cache_buffer 0).length = 128
      ∧ (List.replicate 100 7 : List Nat).length ≤ 128
      ∧ 128 < (List.replicate 129 7 : List Nat).length)
  ∧ ((sendUSBPacket 0 (List.replicate 100 7)
        initUSBState).1.udd_ep_in_cache_buffer 0).take
        (List.replicate 100 7 : List Nat).length = List.replicate 100 7
  ∧ (sendUSBPacket 0 (List.replicate 129 7)
        initUSBState).1.udd_ep_in_cache_buffer 0 =
      (List.replicate 129 7 : List Nat).take 128 :=
  ⟨⟨by decide, by decide, by decide⟩,
    usb_C10.1 (List.replicate 100 7) initUSBState (by decide) (by decide),
    (usb_C10.2.1 (List.replicate 129 7) initUSBState (by decide)
      (by decide)).1⟩

/-! ### Claim C3 -/

/-- Claim C3, counterexample: the 8-byte device-descriptor response sent
for wLength 8 carries the composite class/subclass/protocol bytes
EF/02/01 at offsets 4-6, while the first 8 bytes of the full device
descriptor (sent when wLength differs from 8) carry 02/00/00 there, so
the two differ. -/
theorem usb_C3_counterexample :
    (handleStandardSetup
        ⟨0x80, usb_GET_DESCRIPTOR, 0, usb_DEVICE_DESCRIPTOR_TYPE, 0, 8⟩
        initUSBState).2.2 =
      [USBAction.epInSend 0 [18, 1, 0, 2, 0xEF, 0x02, 0x01, 64]]
  ∧ (deviceDescriptorBytes 0x02 0x00 0x00 64 usb_VID usb_PID 0x100
        usb_IMANUFACTURER usb_IPRODUCT usb_ISERIAL 1).take 8 =
      [18, 1, 0, 2, 0x02, 0x00, 0x00, 64]
  ∧ ([18, 1, 0, 2, 0xEF, 0x02, 0x01, 64] : List Nat) ≠
      [18, 1, 0, 2, 0x02, 0x00, 0x00, 64] := by
  decide

/-- Claim C3 as amended: a standard GET_DESCRIPTOR for the device
descriptor with wLength 8 responds with the first 8 bytes of the
composite-form device descriptor (class EF, subclass 02, protocol 01);
any other wLength gets the complete full-form descriptor (class 02,
subclass 00, protocol 00), and the two disagree on their first 8 bytes
(at offsets 4-6). -/
theorem usb_C3_amended (bm vL wi : Nat) :
    (handleStandardSetup
        ⟨bm, usb_GET_DESCRIPTOR, vL, usb_DEVICE_DESCRIPTOR_TYPE, wi, 8⟩
        initUSBState).2.2 =
      [USBAction.epInSend 0
        ((deviceDescriptorBytes 0xEF 0x02 0x01 64 usb_VID usb_PID 0x100
          usb_IMANUFACTURER usb_IPRODUCT usb_ISERIAL 1).take 8)]
  ∧ (∀ wl, wl ≠ 8 →
      (handleStandardSetup
          ⟨bm, usb_GET_DESCRIPTOR, vL, usb_DEVICE_DESCRIPTOR_TYPE, wi, wl⟩
          initUSBState).2.2 =
        [USBAction.epInSend 0
          (deviceDescriptorBytes 0x02 0x00 0x00 64 usb_VID usb_PID 0x100
            usb_IMANUFACTURER usb_IPRODUCT usb_ISERIAL 1)])
  ∧ (deviceDescriptorBytes 0xEF 0x02 0x01 64 usb_VID usb_PID 0x100
        usb_IMANUFACTURER usb_IPRODUCT usb_ISERIAL 1).take 8 ≠
      (deviceDescriptorBytes 0x02 0x00 0x00 64 usb_VID usb_PID 0x100
        usb_IMANUFACTURER usb_IPRODUCT usb_ISERIAL 1).take 8 := by
  refine ⟨rfl, ?_, by decide⟩
  intro wl hwl
  unfold handleStandardSetup sendDescriptor
  simp only [usb_GET_DESCRIPTOR, usb_GET_STATUS, usb_CLEAR_FEATURE,
    usb_SET_FEATURE, usb_SET_ADDRESS, usb_CONFIGURATION_DESCRIPTOR_TYPE,
    usb_DEVICE_DESCRIPTOR_TYPE]
  norm_num
  rw [if_neg hwl]
  rfl

/-- Claim C3 witness: the amended theorem at a concrete setup packet,
with the general-wLength part instantiated at wLength 18. -/
theorem usb_C3_witness :
    ((18 : Nat) ≠ 8)
  ∧ (handleStandardSetup
        ⟨0x80, usb_GET_DESCRIPTOR, 0, usb_DEVICE_DESCRIPTOR_TYPE, 0, 18⟩
        initUSBState).2.2 =
      [USBAction.epInSend 0
        (deviceDescriptorBytes 0x02 0x00 0x00 64 usb_VID usb_PID 0x100
          usb_IMANUFACTURER usb_IPRODUCT usb_ISERIAL 1)] :=
  ⟨by decide, (usb_C3_amended 0x80 0 0).2.1 18 (by decide)⟩

/-! ### Claim C5 -/

/-- Claim C5, counterexample: WriteByte gates transmission on
lineState being nonzero, not on DTR or RTS.  After a
SET_CONTROL_LINE_STATE request with wValueL 4 (a reachable host input)
both DTR and RTS read false, yet WriteByte starts a one-byte DMA
transmission, contradicting the claim that no DMA start happens when
neither DTR nor RTS is set. -/
theorem usb_C5_counterexample :
    DTR ((cdcSetup ⟨usb_REQUEST_HOSTTODEVICE_CLASS_INTERFACE,
        usb_CDC_SET_CONTROL_LINE_STATE, 4, 0, 0, 0⟩ initUSBState).2.1) =
      false
  ∧ RTS ((cdcSetup ⟨usb_REQUEST_HOSTTODEVICE_CLASS_INTERFACE,
        usb_CDC_SET_CONTROL_LINE_STATE, 4, 0, 0, 0⟩ initUSBState).2.1) =
      false
  ∧ (WriteByte 65 ((cdcSetup ⟨usb_REQUEST_HOSTTODEVICE_CLASS_INTERFACE,
        usb_CDC_SET_CONTROL_LINE_STATE, 4, 0, 0, 0⟩
        initUSBState).2.1)).2.1 =
      [USBAction.epInSend usb_CDC_ENDPOINT_IN [65]] := by
  decide

/-- Claim C5 as amended: WriteByte performs no DMA start and returns nil
when lineState is 0; it performs exactly one DMA-triggered transmission
of the single byte on the bulk IN endpoint whenever lineState is nonzero
(in particular whenever DTR is set, since DTR set implies lineState
nonzero); and it returns nil in every case. -/
theorem usb_C5_amended (c : Nat) (s : USBState) :
    (s.usbLineInfo.lineState = 0 →
      (WriteByte c s).2.1 = [] ∧ (WriteByte c s).2.2 = none)
  ∧ (s.usbLineInfo.lineState > 0 →
      (s.udd_ep_in_cache_buffer usb_CDC_ENDPOINT_IN).length = 128 →
      (WriteByte c s).2.1 =
        [USBAction.epInSend usb_CDC_ENDPOINT_IN [c]]
      ∧ (WriteByte c s).2.2 = none)
  ∧ (DTR s = true → s.usbLineInfo.lineState > 0)
  ∧ (WriteByte c s).2.2 = none := by
  refine ⟨?_, ?_, ?_, ?_⟩
  · intro h0
    unfold WriteByte
    rw [if_neg (by omega)]
    exact ⟨rfl, rfl⟩
  · intro hpos hlen
    unfold WriteByte
    rw [if_pos hpos]
    dsimp only [sendViaEPIn, enterCriticalSection]
    rw [set_take_one _ c hlen]
    exact ⟨rfl, rfl⟩
  · intro hdtr
    have hle : s.usbLineInfo.lineState &&& usb_CDC_LINESTATE_DTR ≤
        s.usbLineInfo.lineState := Nat.and_le_left
    have hgt : s.usbLineInfo.lineState &&& usb_CDC_LINESTATE_DTR > 0 := by
      simpa [DTR] using hdtr
    omega
  · unfold WriteByte
    split
    · rfl
    · rfl

/-- Claim C5 witness: the amended theorem applied with line state DTR
set from the boot state. -/
theorem usb_C5_witness :
    (({ initUSBState with usbLineInfo :=
        { initUSBState.usbLineInfo with lineState := 1 } } :
          USBState).usbLineInfo.lineState > 0
      ∧ (({ initUSBState with usbLineInfo :=
          { initUSBState.usbLineInfo with lineState := 1 } } :
            USBState).udd_ep_in_cache_buffer
            usb_CDC_ENDPOINT_IN).length = 128)
  ∧ (WriteByte 65 ({ initUSBState with usbLineInfo :=
        { initUSBState.usbLineInfo with lineState := 1 } } :
          USBState)).2.1 =
      [USBAction.epInSend usb_CDC_ENDPOINT_IN [65]] :=
  ⟨⟨by decide, by decide⟩,
    ((usb_C5_amended 65 ({ initUSBState with usbLineInfo :=
        { initUSBState.usbLineInfo with lineState := 1 } } :
          USBState)).2.1 (by decide) (by decide)).1⟩

/-! ### Claim C7 -/

/-- Claim C7: an armed SET_LINE_CODING data phase whose OUT payload
count is below 7 leaves every field of the line info unchanged, clears
only the pending flag, reports nothing upward, and still enters the
status stage. -/
theorem usb_C7 (s : USBState) (count : Nat)
    (hlc : s.epout0data_setlinecoding = true) (hcount : count < 7) :
    (handleEndEpOut0 count s).1.usbLineInfo = s.usbLineInfo
  ∧ (handleEndEpOut0 count s).2 = [USBAction.ep0Status]
  ∧ (handleEndEpOut0 count s).1.epout0data_setlinecoding = false := by
  unfold handleEndEpOut0
  rw [if_pos hlc, if_neg (by omega)]
  exact ⟨rfl, rfl, rfl⟩

/-- Claim C7 witness: a 3-byte SET_LINE_CODING payload against the boot
state with the data phase armed. -/
theorem usb_C7_witness :
    (({ initUSBState with epout0data_setlinecoding := true } :
        USBState).epout0data_setlinecoding = true ∧ (3 : Nat) < 7)
  ∧ (handleEndEpOut0 3 ({ initUSBState with
        epout0data_setlinecoding := true } : USBState)).1.usbLineInfo =
      ({ initUSBState with epout0data_setlinecoding := true } :
        USBState).usbLineInfo
  ∧ (handleEndEpOut0 3 ({ initUSBState with
        epout0data_setlinecoding := true } : USBState)).2 =
      [USBAction.ep0Status] :=
  ⟨⟨by decide, by decide⟩,
    (usb_C7 ({ initUSBState with epout0data_setlinecoding := true } :
        USBState) 3 (by decide) (by decide)).1,
    (usb_C7 ({ initUSBState with epout0data_setlinecoding := true } :
        USBState) 3 (by decide) (by decide)).2.1⟩

/-! ### Claim C8 -/

/-- Claim C8, counterexample: after a bus-ready event with a recorded
multi-packet continuation, the sendOnEP0DATADONE pointer is still set
(the handler never clears it), and the next EP0-data-done event still
sends the stale continuation, contradicting the claim that the pending
continuation is discarded and never completed. -/
theorem usb_C8_counterexample :
    (handleUSBEventReady ({ initUSBState with
        sendOnEP0DATADONE := ⟨some 64, 10⟩ } :
          USBState)).1.sendOnEP0DATADONE.ptr = some 64
  ∧ (handleEP0DataDone (handleUSBEventReady ({ initUSBState with
        sendOnEP0DATADONE := ⟨some 64, 10⟩ } : USBState)).1).2 =
      [USBAction.epInSend 0 (List.replicate 10 0)] := by
  decide

/-- Claim C8 as amended: a bus-ready event resets the configuration
value to 0 but leaves sendOnEP0DATADONE exactly as it was: an in-flight
multi-packet continuation is not discarded by the reset and can still be
sent by a later EP0-data-done event. -/
theorem usb_C8_amended (s : USBState) :
    (handleUSBEventReady s).1.usbConfiguration = 0
  ∧ (handleUSBEventReady s).1.sendOnEP0DATADONE = s.sendOnEP0DATADONE := by
  exact ⟨rfl, rfl⟩

/-! ### Claim C9 -/

/-- Claim C9, code bug evaluation: a GET_STATUS request addressed to the
device recipient (bmRequestType 0x80, whose recipient bits are
usb_REQUEST_DEVICE) with the endpoint-halt flag set is answered with
first byte 1: the code tests bmRequestType against zero (its comment
says endpoint) instead of decoding the recipient field, so device- and
interface-recipient requests also report the halt flag instead of the
claimed zero. -/
theorem usb_C9_bug :
    (handleStandardSetup ⟨0x80, usb_GET_STATUS, 0, 0, 0, 2⟩
        ({ initUSBState with isEndpointHalt := true } : USBState)).2.2 =
      [USBAction.epInSend 0 [1, 0]]
  ∧ 0x80 &&& usb_REQUEST_RECIPIENT = usb_REQUEST_DEVICE
  ∧ ([1, 0] : List Nat) ≠ [0, 0] := by
  decide

/-! ### Claim C4 -/

/-- Claim C4, counterexample: the standard request code 12 is outside
the handled set, yet handleStandardSetup returns success (the default
switch arm is accept-and-ignore), and the dispatcher emits no stall task
for it, contradicting the claim that every unmatched request returns
failure and stalls endpoint 0. -/
theorem usb_C4_counterexample :
    (handleStandardSetup ⟨0x80, 12, 0, 0, 0, 0⟩ initUSBState).1 = true
  ∧ (handleEP0Setup ⟨0x80, 12, 0, 0, 0, 0⟩ initUSBState).2 = []
  ∧ USBAction.ep0Stall ∉
      (handleEP0Setup ⟨0x80, 12, 0, 0, 0, 0⟩ initUSBState).2 := by
  decide

/-- Claim C4 as amended: a standard request outside the handled set is
accepted with no action and no stall (accept-and-ignore); for class
requests on the CDC-ACM interface, a device-to-host class-interface
request with unrecognized bRequest returns failure and endpoint 0 is
stalled, while a host-to-device class-interface request with
unrecognized bRequest is accepted without a stall; the handlers are
total functions, so no input crashes or hangs them. -/
theorem usb_C4_amended :
    (∀ bm br vL vH wi wl : Nat,
      bm &&& usb_REQUEST_TYPE = usb_REQUEST_STANDARD →
      br ∉ ([0, 1, 3, 5, 6, 7, 8, 9, 10, 11] : List Nat) →
      (handleStandardSetup ⟨bm, br, vL, vH, wi, wl⟩ initUSBState).1 = true
      ∧ USBAction.ep0Stall ∉
          (handleEP0Setup ⟨bm, br, vL, vH, wi, wl⟩ initUSBState).2)
  ∧ (∀ br vL vH wl : Nat, br ≠ usb_CDC_GET_LINE_CODING →
      USBAction.ep0Stall ∈
        (handleEP0Setup ⟨usb_REQUEST_DEVICETOHOST_CLASS_INTERFACE, br, vL,
          vH, usb_CDC_ACM_INTERFACE, wl⟩ initUSBState).2)
  ∧ (∀ br vL vH wl : Nat,
      br ∉ ([usb_CDC_SET_LINE_CODING, usb_CDC_SET_CONTROL_LINE_STATE,
        usb_CDC_SEND_BREAK] : List Nat) →
      USBAction.ep0Stall ∉
        (handleEP0Setup ⟨usb_REQUEST_HOSTTODEVICE_CLASS_INTERFACE, br, vL,
          vH, usb_CDC_ACM_INTERFACE, wl⟩ initUSBState).2) := by
  refine ⟨?_, ?_, ?_⟩
  · intro bm br vL vH wi wl hstd hbr
    simp only [List.mem_cons, List.not_mem_nil, or_false, not_or] at hbr
    obtain ⟨h0, h1, h3, h5, h6, h7, h8, h9, h10, h11⟩ := hbr
    have hss : (handleStandardSetup ⟨bm, br, vL, vH, wi, wl⟩
        initUSBState) = (true, initUSBState, []) := by
      unfold handleStandardSetup
      dsimp only
      rw [if_neg (by simpa [usb_GET_STATUS] using h0),
        if_neg (by simpa [usb_CLEAR_FEATURE] using h1),
        if_neg (by simpa [usb_SET_FEATURE] using h3),
        if_neg (by simpa [usb_SET_ADDRESS] using h5),
        if_neg (by simpa [usb_GET_DESCRIPTOR] using h6),
        if_neg (by simpa [usb_SET_DESCRIPTOR] using h7),
        if_neg (by simpa [usb_GET_CONFIGURATION] using h8),
        if_neg (by simpa [usb_SET_CONFIGURATION] using h9),
        if_neg (by simpa [usb_GET_INTERFACE] using h10),
        if_neg (by simpa [usb_SET_INTERFACE] using h11)]
    refine ⟨by rw [hss], ?_⟩
    unfold handleEP0Setup
    dsimp only
    rw [if_pos hstd, hss]
    simp
  · intro br vL vH wl hbr
    unfold handleEP0Setup
    dsimp only
    rw [if_neg (show ¬(usb_REQUEST_DEVICETOHOST_CLASS_INTERFACE &&&
          usb_REQUEST_TYPE = usb_REQUEST_STANDARD) by decide),
      if_pos (show usb_CDC_ACM_INTERFACE = usb_CDC_ACM_INTERFACE from rfl)]
    unfold cdcSetup
    dsimp only
    rw [if_pos (show usb_REQUEST_DEVICETOHOST_CLASS_INTERFACE =
          usb_REQUEST_DEVICETOHOST_CLASS_INTERFACE from rfl),
      if_neg hbr]
    simp
  · intro br vL vH wl hbr
    simp only [List.mem_cons, List.not_mem_nil, or_false, not_or] at hbr
    obtain ⟨hA, hB, hC⟩ := hbr
    unfold handleEP0Setup
    dsimp only
    rw [if_neg (show ¬(usb_REQUEST_HOSTTODEVICE_CLASS_INTERFACE &&&
          usb_REQUEST_TYPE = usb_REQUEST_STANDARD) by decide),
      if_pos (show usb_CDC_ACM_INTERFACE = usb_CDC_ACM_INTERFACE from rfl)]
    unfold cdcSetup
    dsimp only
    rw [if_neg (show ¬(usb_REQUEST_HOSTTODEVICE_CLASS_INTERFACE =
          usb_REQUEST_DEVICETOHOST_CLASS_INTERFACE) by decide),
      if_pos (show usb_REQUEST_HOSTTODEVICE_CLASS_INTERFACE =
          usb_REQUEST_HOSTTODEVICE_CLASS_INTERFACE from rfl),
      if_neg hA, if_neg hB, if_neg hC]
    simp

/-- Claim C4 witness: the amended theorem instantiated at a concrete
unhandled standard request (code 12) and a concrete unrecognized class
request (code 0x25) in both directions. -/
theorem usb_C4_witness :
    ((0x80 &&& usb_REQUEST_TYPE = usb_REQUEST_STANDARD
      ∧ (12 : Nat) ∉ ([0, 1, 3, 5, 6, 7, 8, 9, 10, 11] : List Nat))
      ∧ (0x25 : Nat) ≠ usb_CDC_GET_LINE_CODING
      ∧ (0x25 : Nat) ∉ ([usb_CDC_SET_LINE_CODING,
          usb_CDC_SET_CONTROL_LINE_STATE, usb_CDC_SEND_BREAK] : List Nat))
  ∧ (handleStandardSetup ⟨0x80, 12, 0, 0, 0, 0⟩ initUSBState).1 = true
  ∧ USBAction.ep0Stall ∈
      (handleEP0Setup ⟨usb_REQUEST_DEVICETOHOST_CLASS_INTERFACE, 0x25, 0,
        0, usb_CDC_ACM_INTERFACE, 0⟩ initUSBState).2
  ∧ USBAction.ep0Stall ∉
      (handleEP0Setup ⟨usb_REQUEST_HOSTTODEVICE_CLASS_INTERFACE, 0x25, 0,
        0, usb_CDC_ACM_INTERFACE, 0⟩ initUSBState).2 :=
  ⟨⟨⟨by decide, by decide⟩, by decide, by decide⟩,
    (usb_C4_amended.1 0x80 12 0 0 0 0 (by decide) (by decide)).1,
    usb_C4_amended.2.1 0x25 0 0 0 (by decide),
    usb_C4_amended.2.2 0x25 0 0 0 (by decide)⟩

/-! ### Claim C6 -/

/-- A value below 256 has no bits at positions 8 and above. -/
theorem testBit_byte_false (x i : Nat) (hx : x < 256) (hi : 8 ≤ i) :
    x.testBit i = false :=
  Nat.testBit_lt_two_pow (lt_of_lt_of_le hx
    (le_trans (by norm_num) (Nat.pow_le_pow_right (by norm_num) hi)))

/-- Bit j of the OR of four byte lanes shifted to offsets 0, 8, 16, 24
is bit j - 8k of the byte in the lane containing j, provided the three
low lanes hold bytes. -/
theorem orBytes_testBit (b0 b1 b2 b3 j : Nat) (h0 : b0 < 256)
    (h1 : b1 < 256) (h2 : b2 < 256) :
    (b0 ||| b1 <<< 8 ||| b2 <<< 16 ||| b3 <<< 24).testBit j =
      if j < 8 then b0.testBit j
      else if j < 16 then b1.testBit (j - 8)
      else if j < 24 then b2.testBit (j - 16)
      else b3.testBit (j - 24) := by
  simp only [Nat.testBit_or, Nat.testBit_shiftLeft, ge_iff_le]
  rcases Nat.lt_or_ge j 8 with hj | hj
  · rw [if_pos hj]
    rw [decide_eq_false (by omega : ¬ 8 ≤ j),
      decide_eq_false (by omega : ¬ 16 ≤ j),
      decide_eq_false (by omega : ¬ 24 ≤ j)]
    simp
  · rw [if_neg (by omega : ¬ j < 8),
      testBit_byte_false b0 j h0 hj]
    rcases Nat.lt_or_ge j 16 with hj2 | hj2
    · rw [if_pos hj2, decide_eq_true (by omega : 8 ≤ j),
        decide_eq_false (by omega : ¬ 16 ≤ j),
        decide_eq_false (by omega : ¬ 24 ≤ j)]
      simp
    · rw [if_neg (by omega : ¬ j < 16),
        testBit_byte_false b1 (j - 8) h1 (by omega)]
      rcases Nat.lt_or_ge j 24 with hj3 | hj3
      · rw [if_pos hj3, decide_eq_true (by omega : 8 ≤ j),
          decide_eq_true (by omega : 16 ≤ j),
          decide_eq_false (by omega : ¬ 24 ≤ j)]
        simp
      · rw [if_neg (by omega : ¬ j < 24),
          testBit_byte_false b2 (j - 16) h2 (by omega),
          decide_eq_true (by omega : 8 ≤ j),
          decide_eq_true (by omega : 16 ≤ j),
          decide_eq_true (by omega : 24 ≤ j)]
        simp

/-- Extracting byte lane 0 from the OR of four shifted byte lanes. -/
theorem orBytes_byte0 (b0 b1 b2 b3 : Nat) (h0 : b0 < 256) (h1 : b1 < 256)
    (h2 : b2 < 256) :
    (b0 ||| b1 <<< 8 ||| b2 <<< 16 ||| b3 <<< 24) % 256 = b0 := by
  rw [show (256 : Nat) = 2 ^ 8 by norm_num]
  apply Nat.eq_of_testBit_eq
  intro i
  rw [Nat.testBit_mod_two_pow, orBytes_testBit b0 b1 b2 b3 i h0 h1 h2]
  rcases Nat.lt_or_ge i 8 with hi | hi
  · rw [if_pos hi, decide_eq_true hi]
    simp
  · rw [if_neg (by omega : ¬ i < 8), decide_eq_false (by omega : ¬ i < 8),
      testBit_byte_false b0 i h0 hi]
    simp

/-- Extracting byte lane 1 from the OR of four shifted byte lanes. -/
theorem orBytes_byte1 (b0 b1 b2 b3 : Nat) (h0 : b0 < 256) (h1 : b1 < 256)
    (h2 : b2 < 256) :
    ((b0 ||| b1 <<< 8 ||| b2 <<< 16 ||| b3 <<< 24) >>> 8) % 256 = b1 := by
  rw [show (256 : Nat) = 2 ^ 8 by norm_num]
  apply Nat.eq_of_testBit_eq
  intro i
  rw [Nat.testBit_mod_two_pow, Nat.testBit_shiftRight,
    orBytes_testBit b0 b1 b2 b3 (8 + i) h0 h1 h2]
  rcases Nat.lt_or_ge i 8 with hi | hi
  · rw [if_neg (by omega : ¬ 8 + i < 8), if_pos (by omega : 8 + i < 16),
      decide_eq_true hi, show 8 + i - 8 = i by omega]
    simp
  · rw [decide_eq_false (by omega : ¬ i < 8),
      testBit_byte_false b1 i h1 hi]
    simp

/-- Extracting byte lane 2 from the OR of four shifted byte lanes. -/
theorem orBytes_byte2 (b0 b1 b2 b3 : Nat) (h0 : b0 < 256) (h1 : b1 < 256)
    (h2 : b2 < 256) :
    ((b0 ||| b1 <<< 8 ||| b2 <<< 16 ||| b3 <<< 24) >>> 16) % 256 = b2 := by
  rw [show (256 : Nat) = 2 ^ 8 by norm_num]
  apply Nat.eq_of_testBit_eq
  intro i
  rw [Nat.testBit_mod_two_pow, Nat.testBit_shiftRight,
    orBytes_testBit b0 b1 b2 b3 (16 + i) h0 h1 h2]
  rcases Nat.lt_or_ge i 8 with hi | hi
  · rw [if_neg (by omega : ¬ 16 + i < 8), if_neg (by omega : ¬ 16 + i < 16),
      if_pos (by omega : 16 + i < 24), decide_eq_true hi,
      show 16 + i - 16 = i by omega]
    simp
  · rw [decide_eq_false (by omega : ¬ i < 8),
      testBit_byte_false b2 i h2 hi]
    simp

/-- Extracting byte lane 3 from the OR of four shifted byte lanes (the
top lane needs no bound: the extraction drops everything below it). -/
theorem orBytes_byte3 (b0 b1 b2 b3 : Nat) (h0 : b0 < 256) (h1 : b1 < 256)
    (h2 : b2 < 256) (h3 : b3 < 256) :
    ((b0 ||| b1 <<< 8 ||| b2 <<< 16 ||| b3 <<< 24) >>> 24) % 256 = b3 := by
  rw [show (256 : Nat) = 2 ^ 8 by norm_num]
  apply Nat.eq_of_testBit_eq
  intro i
  rw [Nat.testBit_mod_two_pow, Nat.testBit_shiftRight,
    orBytes_testBit b0 b1 b2 b3 (24 + i) h0 h1 h2]
  rw [if_neg (by omega : ¬ 24 + i < 8), if_neg (by omega : ¬ 24 + i < 16),
    if_neg (by omega : ¬ 24 + i < 24), show 24 + i - 24 = i by omega]
  rcases Nat.lt_or_ge i 8 with hi | hi
  · rw [decide_eq_true hi]
    simp
  · rw [decide_eq_false (by omega : ¬ i < 8),
      testBit_byte_false b3 i h3 hi]
    simp

/-- Claim C6: encoding the line info produced by parseUSBLineInfo
reproduces any 7-byte payload exactly (the GET_LINE_CODING encoding is
the inverse of parseUSBLineInfo on 7-byte payloads), and the concrete
SET_LINE_CODING data phase for baud 9600, charFormat 1, parity 0,
dataBits 8 followed by GET_LINE_CODING sends exactly the 7 bytes
9600-LE32, 1, 0, 8. -/
theorem usb_C6 :
    (∀ (b : List Nat) (li : cdcLineInfo), b.length = 7 →
      (∀ x ∈ b, x < 256) →
      lineCodingBytes (parseUSBLineInfo b li) = b)
  ∧ ((cdcSetup ⟨usb_REQUEST_DEVICETOHOST_CLASS_INTERFACE,
        usb_CDC_GET_LINE_CODING, 0, 0, 0, 7⟩
        (handleEndEpOut0 7
          ({ (cdcSetup ⟨usb_REQUEST_HOSTTODEVICE_CLASS_INTERFACE,
              usb_CDC_SET_LINE_CODING, 0, 0, 0, 7⟩ initUSBState).2.1 with
            udd_ep_out_cache_buffer := fun _ =>
              [0x80, 0x25, 0, 0, 1, 0, 8] ++ List.replicate 121 0 } :
              USBState)).1).2.2 =
      [USBAction.epInSend 0 [0x80, 0x25, 0, 0, 1, 0, 8]]) := by
  constructor
  · intro b li hlen hb
    match b, hlen with
    | [b0, b1, b2, b3, b4, b5, b6], _ =>
      simp only [List.mem_cons, List.not_mem_nil, or_false,
        forall_eq_or_imp, forall_eq] at hb
      obtain ⟨h0, h1, h2, h3, h4, h5, h6⟩ := hb
      show [(b0 ||| b1 <<< 8 ||| b2 <<< 16 ||| b3 <<< 24) % 256,
        ((b0 ||| b1 <<< 8 ||| b2 <<< 16 ||| b3 <<< 24) >>> 8) % 256,
        ((b0 ||| b1 <<< 8 ||| b2 <<< 16 ||| b3 <<< 24) >>> 16) % 256,
        ((b0 ||| b1 <<< 8 ||| b2 <<< 16 ||| b3 <<< 24) >>> 24) % 256,
        b4, b5, b6] = [b0, b1, b2, b3, b4, b5, b6]
      rw [orBytes_byte0 b0 b1 b2 b3 h0 h1 h2,
        orBytes_byte1 b0 b1 b2 b3 h0 h1 h2,
        orBytes_byte2 b0 b1 b2 b3 h0 h1 h2,
        orBytes_byte3 b0 b1 b2 b3 h0 h1 h2 h3]
  · decide

/-- Claim C6 witness: the general round trip applied to the concrete
9600 8N1 payload. -/
theorem usb_C6_witness :
    (([0x80, 0x25, 0, 0, 1, 0, 8] : List Nat).length = 7
      ∧ ∀ x ∈ ([0x80, 0x25, 0, 0, 1, 0, 8] : List Nat), x < 256)
  ∧ lineCodingBytes (parseUSBLineInfo [0x80, 0x25, 0, 0, 1, 0, 8]
      initUSBState.usbLineInfo) = [0x80, 0x25, 0, 0, 1, 0, 8] :=
  ⟨⟨by decide, by decide⟩,
    usb_C6.1 [0x80, 0x25, 0, 0, 1, 0, 8] initUSBState.usbLineInfo
      (by decide) (by decide)⟩

/-! ### Claim C2 -/

/-- Running a concatenated trace runs the prefix first and continues
from its final flag value. -/
theorem csRun_append (l1 l2 : List CSOp) (b : Bool) :
    csRun (l1 ++ l2) b = (csRun l1 b).bind (fun bb => csRun l2 bb) := by
  induction l1 generalizing b with
  | nil => simp [csRun]
  | cons op rest ih =>
      cases h : csStep op b with
      | none => simp [csRun, h]
      | some bb => simp [csRun, h, ih bb]

/-- A completed enterCriticalSection found the flag clear and left it
set. -/
theorem csRun_singleton_enter (b c : Bool)
    (h : csRun [CSOp.enter] b = some c) : b = false ∧ c = true := by
  cases b with
  | false =>
      refine ⟨rfl, ?_⟩
      simpa [csRun, csStep] using h.symm
  | true => simp [csRun, csStep] at h

/-- A trace with no completed exitCriticalSection that starts with the
flag set keeps it set (no enter can complete meanwhile). -/
theorem csRun_no_exit_of_true (l : List CSOp) (hx : CSOp.exit ∉ l)
    (c : Bool) (h : csRun l true = some c) : c = true := by
  cases l with
  | nil => simpa [csRun] using h.symm
  | cons op rest =>
      cases op with
      | enter => simp [csRun, csStep] at h
      | exit => exact absurd (List.mem_cons_self _ _) hx

/-- Claim C2: in every valid interleaving of completed
enterCriticalSection and exitCriticalSection operations starting from a
clear easyDMABusy flag, two completed enters are always separated by a
completed exit: the flag is never set twice without an intervening
clear, so at most one DMA operation guarded by it is in flight. -/
theorem usb_C2 (ops : List CSOp) (b : Bool)
    (hrun : csRun ops false = some b) (i j : Nat) (hij : i < j)
    (hjlen : j < ops.length) (hi : ops[i]? = some CSOp.enter)
    (hj : ops[j]? = some CSOp.enter) :
    ∃ k, i < k ∧ k < j ∧ ops[k]? = some CSOp.exit := by
  by_contra hno
  simp only [not_exists, not_and] at hno
  set M : List CSOp := (ops.take j).drop (i + 1) with hM
  have hMlen : M.length = j - (i + 1) := by
    rw [hM, List.length_drop, List.length_take, min_eq_left (by omega)]
  have hnoexit : CSOp.exit ∉ M := by
    intro hmem
    obtain ⟨m, hm⟩ := List.mem_iff_getElem?.mp hmem
    have hmlt : m < M.length := by
      rcases List.getElem?_eq_some.mp hm with ⟨hlt, _⟩
      exact hlt
    have hmj : i + 1 + m < j := by omega
    have : ops[i + 1 + m]? = some CSOp.exit := by
      rw [hM, List.getElem?_drop, List.getElem?_take] at hm
      rwa [if_pos hmj] at hm
    exact hno (i + 1 + m) (by omega) (by omega) this
  have hsplit : ops.take (j + 1) =
      (ops.take (i + 1) ++ M) ++ [CSOp.enter] := by
    have h1 : ops.take (j + 1) = ops.take j ++ [CSOp.enter] := by
      rw [List.take_succ, hj]
      rfl
    have h2 : ops.take j = ops.take (i + 1) ++ M := by
      conv_lhs => rw [← List.take_append_drop (i + 1) (ops.take j)]
      rw [List.take_take, min_eq_left (by omega)]
    rw [h1, h2]
  have hpre : ∃ c, csRun (ops.take (j + 1)) false = some c := by
    have happ := csRun_append (ops.take (j + 1)) (ops.drop (j + 1)) false
    rw [List.take_append_drop] at happ
    rcases hcase : csRun (ops.take (j + 1)) false with _ | c
    · rw [hcase] at happ
      rw [happ] at hrun
      simp at hrun
    · exact ⟨c, rfl⟩
  obtain ⟨c, hc⟩ := hpre
  rw [hsplit, csRun_append] at hc
  rcases hmid : csRun (ops.take (i + 1) ++ M) false with _ | e
  · rw [hmid] at hc
    simp at hc
  · rw [hmid] at hc
    simp only [Option.some_bind] at hc
    have he : e = false := (csRun_singleton_enter e c hc).1
    rw [csRun_append] at hmid
    have htakei1 : ops.take (i + 1) = ops.take i ++ [CSOp.enter] := by
      rw [List.take_succ, hi]
      rfl
    rcases hfst : csRun (ops.take (i + 1)) false with _ | d
    · rw [hfst] at hmid
      simp at hmid
    · rw [hfst] at hmid
      simp only [Option.some_bind] at hmid
      have hd : d = true := by
        rw [htakei1, csRun_append] at hfst
        rcases hg : csRun (ops.take i) false with _ | g
        · rw [hg] at hfst
          simp at hfst
        · rw [hg] at hfst
          simp only [Option.some_bind] at hfst
          exact (csRun_singleton_enter g d hfst).2
      rw [hd] at hmid
      have := csRun_no_exit_of_true M hnoexit e hmid
      rw [he] at this
      exact Bool.false_ne_true this

/-- Claim C2 witness: the theorem applied to the concrete completed
trace enter, exit, enter, whose two enters at positions 0 and 2 are
separated by the exit at position 1. -/
theorem usb_C2_witness :
    (csRun [CSOp.enter, CSOp.exit, CSOp.enter] false = some true
      ∧ [CSOp.enter, CSOp.exit, CSOp.enter][0]? = some CSOp.enter
      ∧ [CSOp.enter, CSOp.exit, CSOp.enter][2]? = some CSOp.enter)
  ∧ ∃ k, 0 < k ∧ k < 2 ∧
      [CSOp.enter, CSOp.exit, CSOp.enter][k]? = some CSOp.exit :=
  ⟨⟨by decide, by decide, by decide⟩,
    usb_C2 [CSOp.enter, CSOp.exit, CSOp.enter] true (by decide) 0 2
      (by decide) (by decide) (by decide) (by decide)⟩

end TinyGoUSB
